import Mathlib

/-!
Verification of the ECEF-to-SEZ conversion script (ecef_to_sez.py).

The script reads six floats (origin and target in ECEF coordinates, km),
solves iteratively for the geodetic latitude of the origin, computes the
longitude and ellipsoidal height, and rotates the target-minus-origin
difference vector into the local South-East-Zenith frame.

The embedding below follows the source line by line over the real numbers.
Python float semantics that matter here are made explicit: float division
by zero raises ZeroDivisionError (it does not produce Inf), and math.asin
raises a math domain error outside [-1, 1]; both are modelled with
`Except PyErr`.  The NaN sentinels the script uses for the loop state
(`prev_lat_rad`, `c_E`) are modelled with `Option ℝ` (`none` = NaN), which
is faithful because those two variables are the only NaN values on any
path that reaches them.
-/

/-- A position or displacement in ECEF Cartesian coordinates, in km. -/
structure EcefVector where
  x_km : ℝ
  y_km : ℝ
  z_km : ℝ

/-- Geodetic latitude (rad), longitude (rad) and ellipsoidal height (km)
of the observation origin. -/
structure GeodeticPose where
  lat_rad : ℝ
  lon_rad : ℝ
  hae_km : ℝ

/-- Output vector in the South-East-Zenith local frame, in km. -/
structure SezVector where
  s_km : ℝ
  e_km : ℝ
  z_km : ℝ

/-- Uncaught errors CPython can raise in the numeric pipeline:
ZeroDivisionError from float division by zero, and ValueError
("math domain error") from asin outside [-1, 1]. -/
inductive PyErr where
  | zeroDivision
  | mathDomain
deriving DecidableEq

/-- Python float division: raises ZeroDivisionError when the divisor is
exactly zero, otherwise returns the quotient. -/
noncomputable def pdiv (a b : ℝ) : Except PyErr ℝ :=
  if b = 0 then .error .zeroDivision else .ok (a / b)

/-- Python math.asin: raises a math domain error outside [-1, 1]. -/
noncomputable def pasin (x : ℝ) : Except PyErr ℝ :=
  if x < -1 ∨ 1 < x then .error .mathDomain else .ok (Real.arcsin x)

/-- Python math.atan2 over the reals: the planar angle of the point
(x, y), in the half-open interval (-π, π]. -/
noncomputable def atan2 (y x : ℝ) : ℝ :=
  Complex.arg ⟨x, y⟩

/-- Source line 32: Earth equatorial radius, km. -/
def R_E_KM : ℝ := 6378.137

/-- Source line 33: first eccentricity of the reference ellipsoid. -/
def E_E : ℝ := 0.081819221456

/-- Source lines 37-38: denominator for the prime-vertical radius of
curvature.  The radicand is at least 1 - ecc², so for the fixed
eccentricity used by the script math.sqrt never sees a negative input
and is modelled by the total Real.sqrt. -/
noncomputable def calc_denom (ecc lat_rad : ℝ) : ℝ :=
  Real.sqrt (1 - ecc ^ 2 * Real.sin lat_rad ^ 2)

/-- Source lines 63-65: component-wise target - origin. -/
def VectorDifferencer.difference (target origin : EcefVector) : EcefVector :=
  ⟨target.x_km - origin.x_km, target.y_km - origin.y_km, target.z_km - origin.z_km⟩

/-- Source line 72: the initial latitude guess,
asin(z_vec_km / sqrt(o_x² + o_y² + o_z²)).  Note that the source divides
the z-component of the DIFFERENCE vector (z_vec_km = z_km - o_z_km), not
the origin's own z-component, by the origin's norm. -/
noncomputable def initLatRad (origin : EcefVector) (z_vec_km : ℝ) : Except PyErr ℝ :=
  match pdiv z_vec_km (Real.sqrt (origin.x_km ^ 2 + origin.y_km ^ 2 + origin.z_km ^ 2)) with
  | .error e => .error e
  | .ok q => pasin q

/-- State of the latitude fixed-point loop (source lines 74-84).
`none` models the NaN sentinel initialization of `prev_lat_rad`
(line 74) and of `c_E` (line 77). -/
structure IterState where
  lat_rad : ℝ
  prev_lat_rad : Option ℝ
  c_E : Option ℝ
  count : ℕ

/-- Source line 79 loop guard:
`(isnan(prev_lat_rad) or abs(lat_rad - prev_lat_rad) > 10e-7) and count < 5`. -/
noncomputable def loopCond (s : IterState) : Bool :=
  (match s.prev_lat_rad with
   | none => true
   | some p => decide (|s.lat_rad - p| > (10e-7 : ℝ))) && decide (s.count < 5)

/-- Source lines 80-84: one iteration of the latitude loop. -/
noncomputable def iterBody (o_z_km r_lon_km : ℝ) (s : IterState) : Except PyErr IterState :=
  match pdiv R_E_KM (calc_denom E_E s.lat_rad) with
  | .error e => .error e
  | .ok cE =>
    match pdiv (o_z_km + cE * E_E ^ 2 * Real.sin s.lat_rad) r_lon_km with
    | .error e => .error e
    | .ok t => .ok ⟨Real.arctan t, some s.lat_rad, some cE, s.count + 1⟩

/-- Source line 79 while loop, written as fuel recursion.  The guard
already bounds `count` by 5, so with fuel 6 the fuel never runs out
while the guard still holds; the fuel parameter is only a termination
device, not part of the modelled semantics. -/
noncomputable def iterLoop (o_z_km r_lon_km : ℝ) : ℕ → IterState → Except PyErr IterState
  | 0, s => .ok s
  | fuel + 1, s =>
    if loopCond s then
      match iterBody o_z_km r_lon_km s with
      | .error e => .error e
      | .ok s2 => iterLoop o_z_km r_lon_km fuel s2
    else .ok s

/-- Source lines 68-87: longitude (line 68), initial latitude guess
(line 72), latitude iteration (lines 74-84) and ellipsoidal height
(line 87).  The function takes the difference vector's z-component as a
separate argument because line 72 of the source reads it.  On line 87
`c_E` can only still be NaN if the loop body never ran, which cannot
happen on a path that reaches line 87 with an `ok` result, so the
`getD 0` default is never exercised there. -/
noncomputable def GeodeticSolver.solve (origin : EcefVector) (z_vec_km : ℝ) :
    Except PyErr GeodeticPose :=
  match initLatRad origin z_vec_km with
  | .error e => .error e
  | .ok lat0 =>
    match iterLoop origin.z_km (Real.sqrt (origin.x_km ^ 2 + origin.y_km ^ 2)) 6
        ⟨lat0, none, none, 0⟩ with
    | .error e => .error e
    | .ok sF =>
      match pdiv (Real.sqrt (origin.x_km ^ 2 + origin.y_km ^ 2)) (Real.cos sF.lat_rad) with
      | .error e => .error e
      | .ok t =>
        .ok ⟨sF.lat_rad, atan2 origin.y_km origin.x_km, t - sF.c_E.getD 0⟩

/-- Source lines 90-96: the SEZ components computed from the difference
vector and the origin's latitude and longitude. -/
noncomputable def SezRotator.rotate (diff : EcefVector) (pose : GeodeticPose) : SezVector :=
  ⟨diff.x_km * Real.cos pose.lon_rad + diff.y_km * Real.sin pose.lon_rad * Real.sin pose.lat_rad
      - diff.z_km * Real.cos pose.lat_rad,
   diff.x_km * (-Real.sin pose.lon_rad) + diff.y_km * Real.cos pose.lon_rad,
   (diff.x_km * Real.cos pose.lon_rad + diff.y_km * Real.sin pose.lon_rad)
      * Real.cos pose.lat_rad + diff.z_km * Real.sin pose.lat_rad⟩

/-- The numeric pipeline of the script (lines 63-96) on six parsed
floats: difference vector, geodetic solution for the origin, rotation
of the difference vector into SEZ. -/
noncomputable def runPipeline (o_x_km o_y_km o_z_km x_km y_km z_km : ℝ) :
    Except PyErr SezVector :=
  match GeodeticSolver.solve ⟨o_x_km, o_y_km, o_z_km⟩ (z_km - o_z_km) with
  | .error e => .error e
  | .ok pose =>
    .ok (SezRotator.rotate
      (VectorDifferencer.difference ⟨x_km, y_km, z_km⟩ ⟨o_x_km, o_y_km, o_z_km⟩) pose)

/-- Source line 57: the usage line. -/
def usageMessage : String :=
  "Usage: python3 ecef_to_sez.py o_x_km o_y_km o_z_km x_km y_km z_km"

/-- Observable outcome of one invocation of the script.
`usageExit line` models printing `line` to stdout followed by the bare
`sys.exit()` of source line 58, which exits with success status;
`printed v` models printing the three SEZ components (lines 99-101) and
falling off the end of the script (success status); `raised e` models an
uncaught exception (error status, no numeric output). -/
inductive ScriptResult where
  | usageExit (line : String)
  | printed (v : SezVector)
  | raised (e : PyErr)

/-- Source lines 49-101: the whole script on parsed command-line
arguments.  The source checks `len(sys.argv) == 7` (the script name plus
six arguments) before converting any argument, so the argument values
are only consulted on the six-argument branch. -/
noncomputable def runScript (args : List ℝ) : ScriptResult :=
  match args with
  | [o_x_km, o_y_km, o_z_km, x_km, y_km, z_km] =>
    match runPipeline o_x_km o_y_km o_z_km x_km y_km z_km with
    | .ok v => .printed v
    | .error e => .raised e
  | _ => .usageExit usageMessage

/-- Modelled from the spec: the frame rotation R_z(lon) about the third
axis, applied to an ECEF vector. -/
noncomputable def specRotZ (lon : ℝ) (v : EcefVector) : EcefVector :=
  ⟨v.x_km * Real.cos lon + v.y_km * Real.sin lon,
   -(v.x_km * Real.sin lon) + v.y_km * Real.cos lon,
   v.z_km⟩

/-- Modelled from the spec: the frame rotation R_y(β) about the second
axis, applied to an ECEF vector. -/
noncomputable def specRotY (β : ℝ) (v : EcefVector) : EcefVector :=
  ⟨v.x_km * Real.cos β - v.z_km * Real.sin β,
   v.y_km,
   v.x_km * Real.sin β + v.z_km * Real.cos β⟩

/-- Modelled from the spec: the rotation-matrix product
R_y(90° - lat) · R_z(lon) applied to the ECEF difference vector, read
off as S-E-Z components. -/
noncomputable def specSezOfMatrix (lat lon : ℝ) (diff : EcefVector) : SezVector :=
  match specRotY (Real.pi / 2 - lat) (specRotZ lon diff) with
  | ⟨a, b, c⟩ => ⟨a, b, c⟩

/-! ### Helper lemmas -/

/-- Division by a nonzero divisor succeeds. -/
theorem pdiv_ok (a b : ℝ) (h : b ≠ 0) : pdiv a b = .ok (a / b) := by
  unfold pdiv
  rw [if_neg h]

/-- Division by zero raises ZeroDivisionError. -/
theorem pdiv_zero_eq (a : ℝ) : pdiv a 0 = .error .zeroDivision := by
  unfold pdiv
  rw [if_pos rfl]

/-- asin succeeds on arguments in [-1, 1]. -/
theorem pasin_ok (x : ℝ) (h1 : -1 ≤ x) (h2 : x ≤ 1) : pasin x = .ok (Real.arcsin x) := by
  unfold pasin
  rw [if_neg]
  push_neg
  exact ⟨h1, h2⟩

/-- asin raises a math domain error above 1. -/
theorem pasin_high (x : ℝ) (h : 1 < x) : pasin x = .error .mathDomain := by
  unfold pasin
  rw [if_pos (Or.inr h)]

/-- The eccentricity constant squared is below 1. -/
theorem E_E_sq_lt_one : E_E ^ 2 < 1 := by
  norm_num [E_E]

/-- The prime-vertical denominator is positive for every latitude, so
the division computing c_E never raises. -/
theorem calc_denom_pos (lat : ℝ) : 0 < calc_denom E_E lat := by
  unfold calc_denom
  apply Real.sqrt_pos.mpr
  have h1 : E_E ^ 2 * Real.sin lat ^ 2 ≤ E_E ^ 2 :=
    mul_le_of_le_one_right (by positivity) (Real.sin_sq_le_one lat)
  linarith [E_E_sq_lt_one]

/-- At latitude 0 the denominator is exactly 1. -/
theorem calc_denom_at_zero : calc_denom E_E 0 = 1 := by
  unfold calc_denom
  rw [Real.sin_zero]
  norm_num

/-- Base case of the loop recursion. -/
theorem iterLoop_zero (o r : ℝ) (s : IterState) : iterLoop o r 0 s = .ok s := rfl

/-- Step case of the loop recursion. -/
theorem iterLoop_succ_def (o r : ℝ) (fuel : ℕ) (s : IterState) :
    iterLoop o r (fuel + 1) s =
      if loopCond s then
        match iterBody o r s with
        | .error e => .error e
        | .ok s2 => iterLoop o r fuel s2
      else .ok s := rfl

/-- The NaN sentinel makes the guard true on loop entry. -/
theorem loopCond_init (lat0 : ℝ) : loopCond ⟨lat0, none, none, 0⟩ = true := rfl

/-- A true guard implies the iteration count is still below 5. -/
theorem loopCond_true_count (s : IterState) (h : loopCond s = true) : s.count < 5 := by
  unfold loopCond at h
  exact of_decide_eq_true ((Bool.and_eq_true _ _).mp h).2

/-- Once the count reaches 5 the guard is false. -/
theorem loopCond_false_of_count (s : IterState) (h : 5 ≤ s.count) : loopCond s = false := by
  unfold loopCond
  rw [decide_eq_false (by omega : ¬s.count < 5), Bool.and_false]

/-- What a false guard means: the cap was hit, or the previous iterate
exists and is within tolerance. -/
theorem loopCond_false_elim (s : IterState) (h : loopCond s = false) :
    5 ≤ s.count ∨ ∃ p, s.prev_lat_rad = some p ∧ |s.lat_rad - p| ≤ (10e-7 : ℝ) := by
  unfold loopCond at h
  cases hp : s.prev_lat_rad with
  | none =>
    rw [hp, Bool.true_and] at h
    left
    have := of_decide_eq_false h
    omega
  | some p =>
    rw [hp] at h
    rcases Bool.and_eq_false_iff.mp h with h1 | h1
    · right
      exact ⟨p, rfl, le_of_not_lt (of_decide_eq_false h1)⟩
    · left
      have := of_decide_eq_false h1
      omega

/-- Shape of a successful loop body: the new latitude is an arctan
value, the previous iterate is recorded, and the count goes up by 1. -/
theorem iterBody_ok_shape (o r : ℝ) (s s2 : IterState) (h : iterBody o r s = .ok s2) :
    (∃ t, s2.lat_rad = Real.arctan t) ∧ (∃ p, s2.prev_lat_rad = some p) ∧
      s2.count = s.count + 1 := by
  unfold iterBody at h
  split at h
  · exact Except.noConfusion h
  · split at h
    · exact Except.noConfusion h
    · rename_i cE hcE t ht
      obtain rfl := (Except.ok.inj h).symm
      exact ⟨⟨t, rfl⟩, ⟨s.lat_rad, rfl⟩, rfl⟩

/-- A successful loop run never takes the count above 5. -/
theorem iterLoop_ok_count_le (o r : ℝ) : ∀ (fuel : ℕ) (s sF : IterState),
    s.count ≤ 5 → iterLoop o r fuel s = .ok sF → sF.count ≤ 5 := by
  intro fuel
  induction fuel with
  | zero =>
    intro s sF hc h
    rw [iterLoop_zero] at h
    obtain rfl := Except.ok.inj h
    exact hc
  | succ n ih =>
    intro s sF hc h
    rw [iterLoop_succ_def] at h
    split at h
    · rename_i hcond
      split at h
      · exact Except.noConfusion h
      · rename_i s2 hs2
        obtain ⟨-, -, hcount⟩ := iterBody_ok_shape o r s s2 hs2
        have := loopCond_true_count s hcond
        exact ih s2 sF (by omega) h
    · obtain rfl := Except.ok.inj h
      exact hc

/-- With enough fuel, a successful loop run ends with a false guard. -/
theorem iterLoop_ok_exit (o r : ℝ) : ∀ (fuel : ℕ) (s sF : IterState),
    5 < s.count + fuel → iterLoop o r fuel s = .ok sF → loopCond sF = false := by
  intro fuel
  induction fuel with
  | zero =>
    intro s sF hgt h
    rw [iterLoop_zero] at h
    obtain rfl := Except.ok.inj h
    exact loopCond_false_of_count s (by omega)
  | succ n ih =>
    intro s sF hgt h
    rw [iterLoop_succ_def] at h
    split at h
    · split at h
      · exact Except.noConfusion h
      · rename_i s2 hs2
        obtain ⟨-, -, hcount⟩ := iterBody_ok_shape o r s s2 hs2
        exact ih s2 sF (by omega) h
    · rename_i hcond
      obtain rfl := Except.ok.inj h
      exact Bool.eq_false_iff.mpr hcond

/-- If the guard holds on entry, a successful run went through the body
at least once: the final latitude is an arctan value, a previous iterate
is recorded, and the count strictly increased. -/
theorem iterLoop_ok_progress (o r : ℝ) : ∀ (fuel : ℕ) (s sF : IterState),
    loopCond s = true → iterLoop o r (fuel + 1) s = .ok sF →
      (∃ t, sF.lat_rad = Real.arctan t) ∧ (∃ p, sF.prev_lat_rad = some p) ∧
        s.count + 1 ≤ sF.count := by
  intro fuel
  induction fuel with
  | zero =>
    intro s sF hc h
    rw [iterLoop_succ_def, if_pos hc] at h
    split at h
    · exact Except.noConfusion h
    · rename_i s2 hs2
      rw [iterLoop_zero] at h
      obtain rfl := Except.ok.inj h
      obtain ⟨h1, h2, h3⟩ := iterBody_ok_shape o r s s2 hs2
      exact ⟨h1, h2, le_of_eq h3.symm⟩
  | succ n ih =>
    intro s sF hc h
    rw [iterLoop_succ_def, if_pos hc] at h
    split at h
    · exact Except.noConfusion h
    · rename_i s2 hs2
      obtain ⟨hb1, hb2, hb3⟩ := iterBody_ok_shape o r s s2 hs2
      by_cases hc2 : loopCond s2 = true
      · obtain ⟨g1, g2, g3⟩ := ih s2 sF hc2 h
        exact ⟨g1, g2, by omega⟩
      · rw [iterLoop_succ_def, if_neg hc2] at h
        obtain rfl := Except.ok.inj h
        exact ⟨hb1, hb2, le_of_eq hb3.symm⟩

/-- Concrete run of one loop body at latitude 0 with o_z = 0 and
r_lon = 1: the latitude stays 0 and c_E becomes R_E_KM. -/
theorem iterBody_flat_eval : iterBody 0 1 ⟨0, none, none, 0⟩ = .ok ⟨0, some 0, some R_E_KM, 1⟩ := by
  have hc : pdiv R_E_KM (calc_denom E_E (0:ℝ)) = .ok R_E_KM := by
    rw [calc_denom_at_zero, pdiv_ok R_E_KM 1 one_ne_zero, div_one]
  have ht : pdiv ((0:ℝ) + R_E_KM * E_E ^ 2 * Real.sin 0) 1 = .ok 0 := by
    rw [pdiv_ok _ 1 one_ne_zero]
    norm_num
  unfold iterBody
  split
  · rename_i e he
    rw [hc] at he
    exact Except.noConfusion he
  · rename_i cE hcE
    rw [hc] at hcE
    obtain rfl := (Except.ok.inj hcE).symm
    split
    · rename_i e he
      rw [ht] at he
      exact Except.noConfusion he
    · rename_i t hT
      rw [ht] at hT
      obtain rfl := (Except.ok.inj hT).symm
      rw [Real.arctan_zero]

/-- The guard is false in the state reached after that body: the two
latest iterates agree exactly. -/
theorem loopCond_flat_false : loopCond ⟨0, some 0, some R_E_KM, 1⟩ = false := by
  show (decide (|(0:ℝ) - 0| > (10e-7 : ℝ)) && decide ((1:ℕ) < 5)) = false
  rw [decide_eq_false (by norm_num : ¬(|(0:ℝ) - 0| > (10e-7 : ℝ))), Bool.false_and]

/-- Concrete run of the whole latitude loop from the state the script
builds for the origin (1, 0, 0) with difference z-component 0: one
iteration, converged at latitude 0. -/
theorem iterLoop_flat_eval :
    iterLoop 0 1 6 ⟨0, none, none, 0⟩ = .ok ⟨0, some 0, some R_E_KM, 1⟩ := by
  rw [show (6:ℕ) = 5 + 1 from rfl, iterLoop_succ_def, if_pos (loopCond_init 0)]
  split
  · rename_i e he
    rw [iterBody_flat_eval] at he
    exact Except.noConfusion he
  · rename_i s2 hs2
    rw [iterBody_flat_eval] at hs2
    obtain rfl := (Except.ok.inj hs2).symm
    rw [show (5:ℕ) = 4 + 1 from rfl, iterLoop_succ_def,
      if_neg (by rw [loopCond_flat_false]; exact Bool.false_ne_true)]

/-- Concrete run of line 72 for the origin (1, 0, 0) and difference
z-component 0: the initial guess is asin(0/1) = 0. -/
theorem initLatRad_flat_eval : initLatRad ⟨1, 0, 0⟩ 0 = .ok 0 := by
  unfold initLatRad
  dsimp only
  have hs : Real.sqrt ((1:ℝ) ^ 2 + 0 ^ 2 + 0 ^ 2) = 1 := by
    rw [show ((1:ℝ) ^ 2 + 0 ^ 2 + 0 ^ 2) = 1 by norm_num, Real.sqrt_one]
  have hp : pdiv (0:ℝ) (Real.sqrt ((1:ℝ) ^ 2 + 0 ^ 2 + 0 ^ 2)) = .ok 0 := by
    rw [hs, pdiv_ok 0 1 one_ne_zero, zero_div]
  split
  · rename_i e he
    rw [hp] at he
    exact Except.noConfusion he
  · rename_i q hq
    rw [hp] at hq
    obtain rfl := (Except.ok.inj hq).symm
    rw [pasin_ok 0 (by norm_num) (by norm_num), Real.arcsin_zero]

/-- Concrete run of the geodetic stage for the origin (1, 0, 0) on the
equator with difference z-component 0: latitude 0, longitude 0, height
1 - R_E_KM. -/
theorem solve_flat_eval : GeodeticSolver.solve ⟨1, 0, 0⟩ 0 = .ok ⟨0, 0, 1 - R_E_KM⟩ := by
  unfold GeodeticSolver.solve
  dsimp only
  have hr : Real.sqrt ((1:ℝ) ^ 2 + 0 ^ 2) = 1 := by
    rw [show ((1:ℝ) ^ 2 + 0 ^ 2) = 1 by norm_num, Real.sqrt_one]
  rw [hr]
  split
  · rename_i e he
    rw [initLatRad_flat_eval] at he
    exact Except.noConfusion he
  · rename_i lat0 hl
    rw [initLatRad_flat_eval] at hl
    obtain rfl := (Except.ok.inj hl).symm
    split
    · rename_i e he
      rw [iterLoop_flat_eval] at he
      exact Except.noConfusion he
    · rename_i sF hsF
      rw [iterLoop_flat_eval] at hsF
      obtain rfl := (Except.ok.inj hsF).symm
      have hp : pdiv (1:ℝ) (Real.cos (0:ℝ)) = .ok 1 := by
        rw [Real.cos_zero, pdiv_ok 1 1 one_ne_zero, div_one]
      split
      · rename_i e he
        rw [hp] at he
        exact Except.noConfusion he
      · rename_i t hT
        rw [hp] at hT
        obtain rfl := (Except.ok.inj hT).symm
        have ha : atan2 0 1 = 0 := by
          unfold atan2
          rw [show (⟨1, 0⟩ : ℂ) = 1 by apply Complex.ext <;> simp, Complex.arg_one]
        show Except.ok (⟨(0:ℝ), atan2 0 1, 1 - R_E_KM⟩ : GeodeticPose) = _
        rw [ha]

/-- Claim C6: starting from the sentinel state the latitude loop runs
at least once and at most five times, and when it stops short of the
cap the last two iterates are within the 10e-7 radian threshold, which
equals the spec tolerance 1e-6. -/
theorem C6_loop_iteration_bounds (o_z r_lon lat0 : ℝ) (sF : IterState)
    (h : iterLoop o_z r_lon 6 ⟨lat0, none, none, 0⟩ = .ok sF) :
    ((1 ≤ sF.count ∧ sF.count ≤ 5) ∧
      (sF.count = 5 ∨ ∃ p, sF.prev_lat_rad = some p ∧ |sF.lat_rad - p| ≤ (10e-7 : ℝ))) ∧
      (10e-7 : ℝ) = 1e-6 := by
  have h6 : iterLoop o_z r_lon (5 + 1) ⟨lat0, none, none, 0⟩ = .ok sF := h
  obtain ⟨-, -, hent⟩ :=
    iterLoop_ok_progress o_z r_lon 5 ⟨lat0, none, none, 0⟩ sF (loopCond_init lat0) h6
  have hent1 : 0 + 1 ≤ sF.count := hent
  have hle : sF.count ≤ 5 :=
    iterLoop_ok_count_le o_z r_lon 6 ⟨lat0, none, none, 0⟩ sF (Nat.zero_le 5) h
  have hex := iterLoop_ok_exit o_z r_lon 6 ⟨lat0, none, none, 0⟩ sF
    (show 5 < 0 + 6 by norm_num) h
  refine ⟨⟨⟨by omega, hle⟩, ?_⟩, by norm_num⟩
  rcases loopCond_false_elim sF hex with h5 | hp
  · exact Or.inl (by omega)
  · exact Or.inr hp

/-- Witness for C6 at o_z = 0, r_lon = 1, initial latitude 0: the loop
converges after exactly one iteration. -/
theorem C6_loop_iteration_bounds_witness :
    ((1 ≤ (IterState.mk 0 (some 0) (some R_E_KM) 1).count ∧
        (IterState.mk 0 (some 0) (some R_E_KM) 1).count ≤ 5) ∧
      ((IterState.mk 0 (some 0) (some R_E_KM) 1).count = 5 ∨
        ∃ p, (IterState.mk 0 (some 0) (some R_E_KM) 1).prev_lat_rad = some p ∧
          |(IterState.mk 0 (some 0) (some R_E_KM) 1).lat_rad - p| ≤ (10e-7 : ℝ))) ∧
      (10e-7 : ℝ) = 1e-6 :=
  C6_loop_iteration_bounds 0 1 0 ⟨0, some 0, some R_E_KM, 1⟩ iterLoop_flat_eval

/-- Claim C9: whenever the geodetic stage completes without raising,
the resulting latitude lies in (-π/2, π/2) and the longitude in
(-π, π]. -/
theorem C9_pose_ranges (origin : EcefVector) (z_vec_km : ℝ) (pose : GeodeticPose)
    (h : GeodeticSolver.solve origin z_vec_km = .ok pose) :
    (-(Real.pi / 2) < pose.lat_rad ∧ pose.lat_rad < Real.pi / 2) ∧
      (-Real.pi < pose.lon_rad ∧ pose.lon_rad ≤ Real.pi) := by
  unfold GeodeticSolver.solve at h
  split at h
  · exact Except.noConfusion h
  · rename_i lat0 hlat0
    split at h
    · exact Except.noConfusion h
    · rename_i sF hloop
      split at h
      · exact Except.noConfusion h
      · rename_i t ht
        obtain rfl := (Except.ok.inj h).symm
        have h6 : iterLoop origin.z_km (Real.sqrt (origin.x_km ^ 2 + origin.y_km ^ 2)) (5 + 1)
            ⟨lat0, none, none, 0⟩ = .ok sF := hloop
        obtain ⟨⟨v, hv⟩, -, -⟩ :=
          iterLoop_ok_progress _ _ 5 ⟨lat0, none, none, 0⟩ sF (loopCond_init lat0) h6
        constructor
        · constructor
          · show -(Real.pi / 2) < sF.lat_rad
            rw [hv]
            exact Real.neg_pi_div_two_lt_arctan v
          · show sF.lat_rad < Real.pi / 2
            rw [hv]
            exact Real.arctan_lt_pi_div_two v
        · have hm := Complex.arg_mem_Ioc ⟨origin.x_km, origin.y_km⟩
          exact ⟨hm.1, hm.2⟩

/-- Witness for C9 at the equatorial origin (1, 0, 0): the solved pose
(0, 0, 1 - R_E_KM) satisfies both range invariants. -/
theorem C9_pose_ranges_witness :
    (-(Real.pi / 2) < (GeodeticPose.mk 0 0 (1 - R_E_KM)).lat_rad ∧
        (GeodeticPose.mk 0 0 (1 - R_E_KM)).lat_rad < Real.pi / 2) ∧
      (-Real.pi < (GeodeticPose.mk 0 0 (1 - R_E_KM)).lon_rad ∧
        (GeodeticPose.mk 0 0 (1 - R_E_KM)).lon_rad ≤ Real.pi) :=
  C9_pose_ranges ⟨1, 0, 0⟩ 0 ⟨0, 0, 1 - R_E_KM⟩ solve_flat_eval

/-- Line 72 as a single division-then-asin step, once the origin norm
is known and nonzero. -/
theorem initLatRad_eval (origin : EcefVector) (zv n : ℝ)
    (hn : Real.sqrt (origin.x_km ^ 2 + origin.y_km ^ 2 + origin.z_km ^ 2) = n) (h0 : n ≠ 0) :
    initLatRad origin zv = pasin (zv / n) := by
  unfold initLatRad
  rw [hn, pdiv_ok zv n h0]

/-- The norm of the origin (3, 0, 4) is 5. -/
theorem sqrt_sum_345 : Real.sqrt ((3:ℝ) ^ 2 + 0 ^ 2 + 4 ^ 2) = 5 := by
  rw [show ((3:ℝ) ^ 2 + 0 ^ 2 + 4 ^ 2) = 5 ^ 2 by norm_num]
  exact Real.sqrt_sq (by norm_num)

/-- With r_lon_km = 0 the latitude update of line 83 divides by zero. -/
theorem iterBody_rlon_zero (o : ℝ) (s : IterState) : iterBody o 0 s = .error .zeroDivision := by
  unfold iterBody
  split
  · rename_i e he
    rw [pdiv_ok _ _ (calc_denom_pos s.lat_rad).ne'] at he
    exact Except.noConfusion he
  · rename_i cE hcE
    rw [pdiv_zero_eq]

/-- With r_lon_km = 0 the loop raises on its first iteration. -/
theorem iterLoop_rlon_zero (o lat0 : ℝ) :
    iterLoop o 0 6 ⟨lat0, none, none, 0⟩ = .error .zeroDivision := by
  rw [show (6:ℕ) = 5 + 1 from rfl, iterLoop_succ_def, if_pos (loopCond_init lat0)]
  split
  · rename_i e he
    rw [iterBody_rlon_zero] at he
    obtain rfl := (Except.error.inj he).symm
    rfl
  · rename_i s2 hs2
    rw [iterBody_rlon_zero] at hs2
    exact Except.noConfusion hs2

/-- On the polar axis (o_x = o_y = 0) the geodetic stage always raises:
at the geocenter the initial division is by zero, and otherwise either
the asin argument is out of range or the first latitude update divides
by r_lon_km = 0. -/
theorem solve_polar_origin_raises (o_z zv : ℝ) :
    ∃ e, GeodeticSolver.solve ⟨0, 0, o_z⟩ zv = .error e := by
  unfold GeodeticSolver.solve
  dsimp only
  have hr : Real.sqrt ((0:ℝ) ^ 2 + 0 ^ 2) = 0 := by
    rw [show ((0:ℝ) ^ 2 + 0 ^ 2) = 0 by norm_num, Real.sqrt_zero]
  rw [hr]
  by_cases hz : o_z = 0
  · subst hz
    have h0 : initLatRad ⟨0, 0, 0⟩ zv = .error .zeroDivision := by
      unfold initLatRad
      dsimp only
      rw [show Real.sqrt ((0:ℝ) ^ 2 + 0 ^ 2 + 0 ^ 2) = 0 by
        rw [show ((0:ℝ) ^ 2 + 0 ^ 2 + 0 ^ 2) = 0 by norm_num, Real.sqrt_zero], pdiv_zero_eq]
    refine ⟨.zeroDivision, ?_⟩
    split
    · rename_i e he
      rw [h0] at he
      obtain rfl := (Except.error.inj he).symm
      rfl
    · rename_i lat0 hl
      rw [h0] at hl
      exact Except.noConfusion hl
  · have hs : Real.sqrt ((0:ℝ) ^ 2 + 0 ^ 2 + o_z ^ 2) = |o_z| := by
      rw [show ((0:ℝ) ^ 2 + 0 ^ 2 + o_z ^ 2) = o_z ^ 2 by ring, Real.sqrt_sq_eq_abs]
    have h0 : initLatRad ⟨0, 0, o_z⟩ zv = pasin (zv / |o_z|) :=
      initLatRad_eval ⟨0, 0, o_z⟩ zv |o_z| hs (abs_ne_zero.mpr hz)
    by_cases hq : zv / |o_z| < -1 ∨ 1 < zv / |o_z|
    · refine ⟨.mathDomain, ?_⟩
      have hp : pasin (zv / |o_z|) = .error .mathDomain := by
        unfold pasin
        rw [if_pos hq]
      split
      · rename_i e he
        rw [h0, hp] at he
        obtain rfl := (Except.error.inj he).symm
        rfl
      · rename_i lat0 hl
        rw [h0, hp] at hl
        exact Except.noConfusion hl
    · have hp : pasin (zv / |o_z|) = .ok (Real.arcsin (zv / |o_z|)) := by
        unfold pasin
        rw [if_neg hq]
      refine ⟨.zeroDivision, ?_⟩
      split
      · rename_i e he
        rw [h0, hp] at he
        exact Except.noConfusion he
      · rename_i lat0 hl
        rw [h0, hp] at hl
        obtain rfl := (Except.ok.inj hl).symm
        rw [iterLoop_rlon_zero o_z (Real.arcsin (zv / |o_z|))]

/-- Claim C1 (code bug): the initial guess of line 72 divides the
difference vector's z-component, not the origin's, by the origin norm.
At the fixed origin (3, 0, 4) the guess is 0 for difference
z-component 0 and π/2 for difference z-component 5, so it depends on
the target, and neither equals asin(o_z / |origin|) = arcsin(4/5). -/
theorem C1_initial_guess_depends_on_target :
    initLatRad ⟨3, 0, 4⟩ 0 = .ok 0 ∧ initLatRad ⟨3, 0, 4⟩ 5 = .ok (Real.pi / 2) ∧
      Real.arcsin ((4:ℝ) / 5) ≠ 0 ∧ (0:ℝ) ≠ Real.pi / 2 := by
  refine ⟨?_, ?_, ?_, ?_⟩
  · rw [initLatRad_eval ⟨3, 0, 4⟩ 0 5 sqrt_sum_345 (by norm_num),
      show (0:ℝ) / 5 = 0 by norm_num, pasin_ok 0 (by norm_num) (by norm_num),
      Real.arcsin_zero]
  · rw [initLatRad_eval ⟨3, 0, 4⟩ 5 5 sqrt_sum_345 (by norm_num),
      show (5:ℝ) / 5 = 1 by norm_num, pasin_ok 1 (by norm_num) (by norm_num),
      Real.arcsin_one]
  · exact (Real.arcsin_pos.mpr (by norm_num)).ne'
  · exact (half_pos Real.pi_pos).ne

/-- Claim C3 (code bug): at latitude 0, longitude 0 and difference
(1, 0, 0) the script computes s_km = 1, while the rotation-matrix
product R_y(90° - lat) · R_z(lon) gives s = 0: line 90 omits the
sin(lat) factor on the diff.x·cos(lon) term. -/
theorem C3_rotation_matrix_mismatch :
    (SezRotator.rotate ⟨1, 0, 0⟩ ⟨0, 0, 0⟩).s_km = 1 ∧
      (specSezOfMatrix 0 0 ⟨1, 0, 0⟩).s_km = 0 ∧ (1:ℝ) ≠ 0 := by
  refine ⟨?_, ?_, one_ne_zero⟩
  · show (1:ℝ) * Real.cos 0 + 0 * Real.sin 0 * Real.sin 0 - 0 * Real.cos 0 = 1
    norm_num
  · unfold specSezOfMatrix specRotZ specRotY
    dsimp only
    rw [sub_zero]
    norm_num [Real.cos_pi_div_two]

/-- Claim C10: the six finite arguments (3, 0, 4, 0, 0, 10) make the
initial asin argument (10 - 4)/5 = 1.2 > 1, so the script raises a
math domain error and prints nothing. -/
theorem C10_math_domain_error :
    runScript [3, 0, 4, 0, 0, 10] = .raised .mathDomain := by
  have hsolve : GeodeticSolver.solve ⟨3, 0, 4⟩ ((10:ℝ) - 4) = .error .mathDomain := by
    have h0 : initLatRad ⟨3, 0, 4⟩ ((10:ℝ) - 4) = pasin (((10:ℝ) - 4) / 5) :=
      initLatRad_eval ⟨3, 0, 4⟩ _ 5 sqrt_sum_345 (by norm_num)
    have hp : pasin (((10:ℝ) - 4) / 5) = .error .mathDomain := by
      unfold pasin
      rw [if_pos (Or.inr (by norm_num))]
    unfold GeodeticSolver.solve
    split
    · rename_i e he
      rw [h0, hp] at he
      obtain rfl := (Except.error.inj he).symm
      rfl
    · rename_i lat0 hl
      rw [h0, hp] at hl
      exact Except.noConfusion hl
  unfold runScript runPipeline
  dsimp only
  rw [hsolve]

/-- Claim C4: with any argument count other than six the script prints
the one-line usage message and exits successfully, performing no
numeric work. -/
theorem C4_usage_on_wrong_arg_count (args : List ℝ) (h : args.length ≠ 6) :
    runScript args = .usageExit usageMessage := by
  unfold runScript
  rcases args with _ | ⟨a, _ | ⟨b, _ | ⟨c, _ | ⟨d, _ | ⟨e, _ | ⟨f, _ | ⟨g, rest⟩⟩⟩⟩⟩⟩⟩
  · rfl
  · rfl
  · rfl
  · rfl
  · rfl
  · rfl
  · simp at h
  · rfl

/-- Witness for C4: the empty argument list takes the usage branch. -/
theorem C4_usage_on_wrong_arg_count_witness :
    runScript [] = .usageExit usageMessage :=
  C4_usage_on_wrong_arg_count [] (by simp)

/-- Claim C5 counterexample: with the origin at the geocenter the
script raises ZeroDivisionError at line 72 instead of completing with
NaN/Inf outputs. -/
theorem C5_counterexample_center_origin :
    runPipeline 0 0 0 1 1 1 = .error .zeroDivision := by
  have h0 : initLatRad ⟨0, 0, 0⟩ ((1:ℝ) - 0) = .error .zeroDivision := by
    unfold initLatRad
    dsimp only
    rw [show Real.sqrt ((0:ℝ) ^ 2 + 0 ^ 2 + 0 ^ 2) = 0 by
      rw [show ((0:ℝ) ^ 2 + 0 ^ 2 + 0 ^ 2) = 0 by norm_num, Real.sqrt_zero], pdiv_zero_eq]
  have hsolve : GeodeticSolver.solve ⟨0, 0, 0⟩ ((1:ℝ) - 0) = .error .zeroDivision := by
    unfold GeodeticSolver.solve
    split
    · rename_i e he
      rw [h0] at he
      obtain rfl := (Except.error.inj he).symm
      rfl
    · rename_i lat0 hl
      rw [h0] at hl
      exact Except.noConfusion hl
  unfold runPipeline
  rw [hsolve]

/-- Claim C5 as amended: for every degenerate origin (geocenter or
polar axis, i.e. o_x = o_y = 0) the pipeline raises an uncaught
ZeroDivisionError or math domain error rather than completing. -/
theorem C5_amended_degenerate_raises (o_z xt yt zt : ℝ) :
    ∃ e, runPipeline 0 0 o_z xt yt zt = .error e := by
  obtain ⟨e, he⟩ := solve_polar_origin_raises o_z (zt - o_z)
  refine ⟨e, ?_⟩
  unfold runPipeline
  rw [he]

/-- Claim C2: for every difference vector and pose, SezRotator.rotate
returns exactly the three spec components
s = dx·cos lon + dy·sin lon·sin lat - dz·cos lat,
e = -dx·sin lon + dy·cos lon,
z = (dx·cos lon + dy·sin lon)·cos lat + dz·sin lat. -/
theorem C2_rotate_components (diff : EcefVector) (pose : GeodeticPose) :
    (SezRotator.rotate diff pose).s_km
        = diff.x_km * Real.cos pose.lon_rad
          + diff.y_km * Real.sin pose.lon_rad * Real.sin pose.lat_rad
          - diff.z_km * Real.cos pose.lat_rad ∧
    (SezRotator.rotate diff pose).e_km
        = -diff.x_km * Real.sin pose.lon_rad + diff.y_km * Real.cos pose.lon_rad ∧
    (SezRotator.rotate diff pose).z_km
        = (diff.x_km * Real.cos pose.lon_rad + diff.y_km * Real.sin pose.lon_rad)
          * Real.cos pose.lat_rad + diff.z_km * Real.sin pose.lat_rad := by
  refine ⟨rfl, ?_, rfl⟩
  show diff.x_km * (-Real.sin pose.lon_rad) + diff.y_km * Real.cos pose.lon_rad = _
  ring

/-- Claim C7: differencing any origin with itself gives the zero vector
in every component. -/
theorem C7_difference_self_zero (origin : EcefVector) :
    VectorDifferencer.difference origin origin = ⟨0, 0, 0⟩ := by
  simp [VectorDifferencer.difference]

/-- Claim C8: rotating the zero difference vector gives the zero SEZ
vector for every pose. -/
theorem C8_rotate_zero (pose : GeodeticPose) :
    SezRotator.rotate ⟨0, 0, 0⟩ pose = ⟨0, 0, 0⟩ := by
  simp [SezRotator.rotate]
